import Mathlib

/-!
Verification of the fitness_app mobile client's session lifecycle and
route selection, shallowly embedded from the TypeScript source:

* `src/frontend/src/api/auth.ts` — `authApi` (HTTP request shapes) and the
  `Navigation` component (route selection);
* `src/context/AuthContext.tsx` — the session manager
  (`checkAuth`, `login`, `register`, `logout`) over React state
  `isAuthenticated : bool`, `loading : bool`, `error : string | null`
  and the AsyncStorage key-value token store;
* `src/navigation/TabNavigator.tsx` — the authenticated tab tree.

Asynchronous calls to the backend and to AsyncStorage are modelled by
explicit outcome parameters (an environment record per call); a call's
effect is a pure function from the starting session state and the
environment to a `CallOutcome` — whether the promise rejected, the final
state, the HTTP requests issued, and the sequence of values assigned to
`loading` during the call.
-/

/-- The persisted key-value store (AsyncStorage): an association list of
string keys to string values, most recent binding first, keys unique. -/
abbrev KVStore := List (String × String)

/-- Lookup of a key in the store; `none` models AsyncStorage returning null. -/
def kvGet (st : KVStore) (k : String) : Option String :=
  match st with
  | [] => none
  | (k', v) :: rest => if k' = k then some v else kvGet rest k

/-- Removal of every binding of a key (AsyncStorage.removeItem). -/
def kvErase (st : KVStore) (k : String) : KVStore :=
  match st with
  | [] => []
  | (k', v) :: rest => if k' = k then kvErase rest k else (k', v) :: kvErase rest k

/-- Insertion or replacement of a binding (AsyncStorage.setItem). -/
def kvSet (st : KVStore) (k v : String) : KVStore :=
  (k, v) :: kvErase st k

/-- Response JSON of POST /api/v1/auth/token (interface AuthResponse of auth.ts). -/
structure AuthResponse where
  access_token : String
  refresh_token : String
  token_type : String
deriving DecidableEq, Repr

/-- Body of an HTTP request: form-urlencoded entries (URLSearchParams, in
append order) or a JSON object's fields. -/
inductive RequestBody where
  | form (entries : List (String × String))
  | json (entries : List (String × String))
deriving DecidableEq, Repr

/-- An HTTP request issued through the api client. -/
structure ApiRequest where
  method : String
  path : String
  body : RequestBody
deriving DecidableEq, Repr

/-- The token request built by authApi.login (auth.ts lines 22-33): a POST to
/api/v1/auth/token with the three form entries appended in source order. -/
def authApiLoginRequest (username password : String) : ApiRequest :=
  { method := "POST"
    path := "/api/v1/auth/token"
    body := .form [("grant_type", "password"), ("username", username), ("password", password)] }

/-- The user-creation request built by authApi.register (auth.ts lines 45-47):
a POST to /api/v1/auth/users with the RegisterData fields as JSON. -/
def authApiRegisterRequest (email password first_name last_name : String) : ApiRequest :=
  { method := "POST"
    path := "/api/v1/auth/users"
    body := .json [("email", email), ("password", password),
                   ("first_name", first_name), ("last_name", last_name)] }

/-- The session state owned by AuthProvider, together with the device store.
`isAuthenticated`, `loading`, `error` are the three useState cells;
`store` is the AsyncStorage contents. -/
structure AuthState where
  isAuthenticated : Bool
  loading : Bool
  error : Option String
  store : KVStore
deriving DecidableEq, Repr

/-- The state of a freshly mounted AuthProvider
(useState(false), useState(true), useState(null)) over whatever the
device store already holds. -/
def initialState (store : KVStore) : AuthState :=
  { isAuthenticated := false, loading := true, error := none, store := store }

/-- The observable outcome of one session-manager call: whether the returned
promise rejected, the session state when the call finished, the HTTP
requests issued during the call in order, and the sequence of values
assigned to `loading` during the call in order. -/
structure CallOutcome where
  rejected : Bool
  state : AuthState
  requests : List ApiRequest
  loadingSets : List Bool
deriving DecidableEq, Repr

/-- Environment of one login call: the backend's answer to the token request
(`none` = the request fails / rejects) and whether the
AsyncStorage.setItem('token', ...) write fails. -/
structure LoginEnv where
  tokenResponse : Option AuthResponse
  setItemFails : Bool
deriving DecidableEq, Repr

/-- The login operation of AuthContext (lines 117-130 of the context source):
setLoading(true); setError(null); await authApi.login; on success
await AsyncStorage.setItem('token', access_token); setIsAuthenticated(true);
catch sets error 'Invalid email or password' and rethrows; finally
setLoading(false). -/
def login (email password : String) (env : LoginEnv) (s : AuthState) : CallOutcome :=
  let s1 : AuthState := { s with loading := true, error := none }
  let req := authApiLoginRequest email password
  match env.tokenResponse with
  | none =>
      { rejected := true
        state := { s1 with error := some "Invalid email or password", loading := false }
        requests := [req]
        loadingSets := [true, false] }
  | some resp =>
      if env.setItemFails then
        { rejected := true
          state := { s1 with error := some "Invalid email or password", loading := false }
          requests := [req]
          loadingSets := [true, false] }
      else
        { rejected := false
          state :=
            { s1 with
              store := kvSet s1.store "token" resp.access_token
              isAuthenticated := true
              loading := false }
          requests := [req]
          loadingSets := [true, false] }

/-- Environment of one register call: whether the backend user-creation
request succeeds, and the environment of the inner login it triggers. -/
structure RegisterEnv where
  createUserSucceeds : Bool
  loginEnv : LoginEnv
deriving DecidableEq, Repr

/-- The register operation of AuthContext (lines 132-145): setLoading(true);
setError(null); await authApi.register; on success await login(email,
password); catch sets error 'Registration failed. Please try again.' and
rethrows; finally setLoading(false). -/
def register (email password firstName lastName : String) (env : RegisterEnv)
    (s : AuthState) : CallOutcome :=
  let s1 : AuthState := { s with loading := true, error := none }
  let req := authApiRegisterRequest email password firstName lastName
  if env.createUserSucceeds then
    let inner := login email password env.loginEnv s1
    if inner.rejected then
      { rejected := true
        state :=
          { inner.state with
            error := some "Registration failed. Please try again."
            loading := false }
        requests := req :: inner.requests
        loadingSets := [true] ++ inner.loadingSets ++ [false] }
    else
      { rejected := false
        state := { inner.state with loading := false }
        requests := req :: inner.requests
        loadingSets := [true] ++ inner.loadingSets ++ [false] }
  else
    { rejected := true
      state :=
        { s1 with
          error := some "Registration failed. Please try again."
          loading := false }
      requests := [req]
      loadingSets := [true, false] }

/-- The logout operation of AuthContext (lines 147-154): try
await AsyncStorage.removeItem('token'); setIsAuthenticated(false); catch
logs only. A failing removeItem skips the setIsAuthenticated call. -/
def logout (removeItemFails : Bool) (s : AuthState) : CallOutcome :=
  if removeItemFails then
    { rejected := false, state := s, requests := [], loadingSets := [] }
  else
    { rejected := false
      state := { s with store := kvErase s.store "token", isAuthenticated := false }
      requests := []
      loadingSets := [] }

/-- The checkAuth operation of AuthContext (lines 106-115): try
token = await AsyncStorage.getItem('token'); setIsAuthenticated(!!token);
catch logs only; finally setLoading(false). `!!token` is false exactly on
null and the empty string. -/
def checkAuth (getItemFails : Bool) (s : AuthState) : CallOutcome :=
  if getItemFails then
    { rejected := false, state := { s with loading := false }, requests := [],
      loadingSets := [false] }
  else
    let authed : Bool :=
      match kvGet s.store "token" with
      | none => false
      | some t => t ≠ ""
    { rejected := false
      state := { s with isAuthenticated := authed, loading := false }
      requests := []
      loadingSets := [false] }

/-- What the Navigation component renders. -/
inductive RenderedTree where
  | loadingIndicator
  | authNavigator
  | tabNavigator
deriving DecidableEq, Repr

/-- The Navigation component of App (auth.ts lines 79-95): if loading, an
ActivityIndicator only; otherwise TabNavigator when authenticated, else
AuthNavigator. -/
def Navigation (loading isAuthenticated : Bool) : RenderedTree :=
  if loading then .loadingIndicator
  else if isAuthenticated then .tabNavigator
  else .authNavigator

/-- The tab screens of TabNavigator in declaration order: route name paired
with the screen component it renders. -/
def tabScreens : List (String × String) :=
  [("Home", "HomeScreen"), ("Workouts", "WorkoutsScreen"), ("Sleep", "SleepScreen"),
   ("Recovery", "RecoveryScreen"), ("Profile", "ProfileScreen")]

/-- The per-tab options title: the Home tab is titled 'Dashboard', the others
take no title option. -/
def tabTitle (routeName : String) : Option String :=
  if routeName = "Home" then some "Dashboard" else none

/-- The tabBarIcon selection of TabNavigator (switch on route.name, picking
the filled glyph when focused and the outline glyph otherwise). -/
def tabBarIcon (routeName : String) (focused : Bool) : String :=
  match routeName with
  | "Home" => if focused then "home" else "home-outline"
  | "Workouts" => if focused then "fitness" else "fitness-outline"
  | "Sleep" => if focused then "moon" else "moon-outline"
  | "Recovery" => if focused then "refresh-circle" else "refresh-circle-outline"
  | "Profile" => if focused then "person" else "person-outline"
  | _ => "home-outline"

theorem kvGet_kvErase_self (st : KVStore) (k : String) :
    kvGet (kvErase st k) k = none := by
  induction st with
  | nil => simp [kvErase, kvGet]
  | cons hd tl ih =>
      by_cases h : hd.1 = k
      · simpa [kvErase, h] using ih
      · simpa [kvErase, kvGet, h] using ih

theorem kvGet_kvErase_ne (st : KVStore) (k k' : String) (h : k' ≠ k) :
    kvGet (kvErase st k) k' = kvGet st k' := by
  induction st with
  | nil => simp [kvErase]
  | cons hd tl ih =>
      by_cases hk : hd.1 = k
      · have hne : hd.1 ≠ k' := by
          intro hc
          exact h (hc ▸ hk)
        simp [kvErase, kvGet, hk, hne, Ne.symm h, ih]
      · by_cases hk' : hd.1 = k'
        · simp [kvErase, kvGet, hk, hk', h, ih]
        · simp [kvErase, kvGet, hk, hk', ih]

theorem kvGet_kvSet_self (st : KVStore) (k v : String) :
    kvGet (kvSet st k v) k = some v := by
  simp [kvSet, kvGet]

theorem kvGet_kvSet_ne (st : KVStore) (k k' v : String) (h : k' ≠ k) :
    kvGet (kvSet st k v) k' = kvGet st k' := by
  have hne : k ≠ k' := fun hc => h hc.symm
  simp [kvSet, kvGet, hne, kvGet_kvErase_ne st k k' h]

/-- C1 counterexample: when the token store's remove fails in a session that is
authenticated and holds a stored token, logout leaves `isAuthenticated = true`
and the token still persisted, contradicting the claim that every logout ends
with `authenticated == false` and the token removed. -/
theorem C1_counterexample :
    ¬ ((logout true (⟨true, false, none, [("token", "abc")]⟩ : AuthState)).state.isAuthenticated = false ∧
       kvGet (logout true (⟨true, false, none, [("token", "abc")]⟩ : AuthState)).state.store "token" = none) := by
  decide

/-- C1 (amended): logout() never rejects; when the token-store remove succeeds
the call ends with `authenticated == false` and the persisted token removed;
when the remove fails the failure is swallowed (no rejection) but the session
state, the authenticated flag included, and the store are left unchanged. -/
theorem C1_logout_amended (s : AuthState) (f : Bool) :
    (logout f s).rejected = false ∧
    (f = false →
       (logout f s).state.isAuthenticated = false ∧
       kvGet (logout f s).state.store "token" = none) ∧
    (f = true → (logout f s).state = s) := by
  cases f <;> simp [logout, kvGet_kvErase_self]

/-- C1 witness: the amended theorem applied to a successful remove from an
authenticated session holding token "abc". -/
theorem C1_logout_amended_witness :
    (logout false (⟨true, false, none, [("token", "abc")]⟩ : AuthState)).state.isAuthenticated = false ∧
    kvGet (logout false (⟨true, false, none, [("token", "abc")]⟩ : AuthState)).state.store "token" = none :=
  (C1_logout_amended
    (⟨true, false, none, [("token", "abc")]⟩ : AuthState) false).2.1 rfl

/-- C2 counterexample: a login call made while the session is already
authenticated, whose backend token request fails, ends with
`isAuthenticated = true`, contradicting the claim that every failing login
ends with `authenticated == false`. -/
theorem C2_counterexample :
    ¬ ((login "user@example.com" "pw" { tokenResponse := none, setItemFails := false }
          (⟨true, false, none, []⟩ : AuthState)).state.isAuthenticated = false) := by
  decide

/-- C2 (amended): for every login call in which the backend token request
fails, the call rejects, the session error is set to
"Invalid email or password", loading ends false, and the authenticated flag is
left unchanged from its value when the call began — hence false whenever the
call began unauthenticated; a failing login never itself assigns the flag. -/
theorem C2_login_failure (email password : String) (env : LoginEnv) (s : AuthState)
    (h : env.tokenResponse = none) :
    (login email password env s).rejected = true ∧
    (login email password env s).state.error = some "Invalid email or password" ∧
    (login email password env s).state.isAuthenticated = s.isAuthenticated ∧
    (login email password env s).state.loading = false := by
  simp [login, h]

/-- C2 witness: the amended theorem applied to a failing login from the
startup (unauthenticated) state, where the flag therefore ends false. -/
theorem C2_login_failure_witness :
    (login "user@example.com" "pw" { tokenResponse := none, setItemFails := false }
       (initialState [])).rejected = true ∧
    (login "user@example.com" "pw" { tokenResponse := none, setItemFails := false }
       (initialState [])).state.error = some "Invalid email or password" ∧
    (login "user@example.com" "pw" { tokenResponse := none, setItemFails := false }
       (initialState [])).state.isAuthenticated = (initialState []).isAuthenticated ∧
    (login "user@example.com" "pw" { tokenResponse := none, setItemFails := false }
       (initialState [])).state.loading = false :=
  C2_login_failure "user@example.com" "pw"
    { tokenResponse := none, setItemFails := false } (initialState []) rfl

/-- C3 counterexample: a login call in which the backend returns a token
response but the awaited token-store write fails persists nothing under
"token", sets the error instead of clearing it, and leaves the session
unauthenticated — contradicting the claim that every login call whose backend
returns a token response persists the access_token, clears the error, and
ends authenticated. -/
theorem C3_counterexample :
    ¬ (kvGet (login "user@example.com" "pw"
          { tokenResponse := some ⟨"tok1", "ref1", "bearer"⟩, setItemFails := true }
          (initialState [])).state.store "token" = some "tok1" ∧
       (login "user@example.com" "pw"
          { tokenResponse := some ⟨"tok1", "ref1", "bearer"⟩, setItemFails := true }
          (initialState [])).state.error = none ∧
       (login "user@example.com" "pw"
          { tokenResponse := some ⟨"tok1", "ref1", "bearer"⟩, setItemFails := true }
          (initialState [])).state.isAuthenticated = true) := by
  decide

/-- C3 (amended): for every login call in which the backend returns a token
response and the token-store write goes through, the call resolves, the
returned access_token is persisted under the key "token", the previous error
is cleared, and the session ends authenticated. -/
theorem C3_login_success (email password : String) (env : LoginEnv) (s : AuthState)
    (resp : AuthResponse) (hb : env.tokenResponse = some resp)
    (hs : env.setItemFails = false) :
    (login email password env s).rejected = false ∧
    kvGet (login email password env s).state.store "token" = some resp.access_token ∧
    (login email password env s).state.error = none ∧
    (login email password env s).state.isAuthenticated = true := by
  simp [login, hb, hs, kvGet_kvSet_self]

/-- C3 witness: the theorem applied to a concrete successful login returning
access_token "tok1". -/
theorem C3_login_success_witness :
    (login "user@example.com" "pw"
       { tokenResponse := some ⟨"tok1", "ref1", "bearer"⟩, setItemFails := false }
       (initialState [])).rejected = false ∧
    kvGet (login "user@example.com" "pw"
       { tokenResponse := some ⟨"tok1", "ref1", "bearer"⟩, setItemFails := false }
       (initialState [])).state.store "token" = some "tok1" ∧
    (login "user@example.com" "pw"
       { tokenResponse := some ⟨"tok1", "ref1", "bearer"⟩, setItemFails := false }
       (initialState [])).state.error = none ∧
    (login "user@example.com" "pw"
       { tokenResponse := some ⟨"tok1", "ref1", "bearer"⟩, setItemFails := false }
       (initialState [])).state.isAuthenticated = true :=
  C3_login_success "user@example.com" "pw"
    { tokenResponse := some ⟨"tok1", "ref1", "bearer"⟩, setItemFails := false }
    (initialState []) ⟨"tok1", "ref1", "bearer"⟩ rfl rfl

/-- C4: when the backend user-creation request succeeds, register issues
exactly the user-creation request followed by the token request carrying the
same email and password (it performs the login operation with the same
credentials); registration alone does not establish a session: if the inner
login fails (failing token request or failing token write) register itself
rejects and leaves the authenticated flag as it was; when the user-creation
request fails, register sets the generic registration error and rejects. -/
theorem C4_register (email password firstName lastName : String) (env : RegisterEnv)
    (s : AuthState) :
    (env.createUserSucceeds = true →
       (register email password firstName lastName env s).requests =
         [authApiRegisterRequest email password firstName lastName,
          authApiLoginRequest email password] ∧
       ((env.loginEnv.tokenResponse = none ∨ env.loginEnv.setItemFails = true) →
          (register email password firstName lastName env s).rejected = true ∧
          (register email password firstName lastName env s).state.isAuthenticated =
            s.isAuthenticated)) ∧
    (env.createUserSucceeds = false →
       (register email password firstName lastName env s).rejected = true ∧
       (register email password firstName lastName env s).state.error =
         some "Registration failed. Please try again." ∧
       (register email password firstName lastName env s).requests =
         [authApiRegisterRequest email password firstName lastName]) := by
  rcases env with ⟨cu, tr, sif⟩
  cases cu <;> cases tr <;> cases sif <;> simp [register, login]

/-- C4 witness: the theorem applied to a register call whose user creation
succeeds but whose automatic inner login fails, so register itself rejects. -/
theorem C4_register_witness :
    (register "user@example.com" "pw" "Ada" "Lovelace"
       { createUserSucceeds := true,
         loginEnv := { tokenResponse := none, setItemFails := false } }
       (initialState [])).requests =
      [authApiRegisterRequest "user@example.com" "pw" "Ada" "Lovelace",
       authApiLoginRequest "user@example.com" "pw"] ∧
    (register "user@example.com" "pw" "Ada" "Lovelace"
       { createUserSucceeds := true,
         loginEnv := { tokenResponse := none, setItemFails := false } }
       (initialState [])).rejected = true := by
  have h := C4_register "user@example.com" "pw" "Ada" "Lovelace"
    { createUserSucceeds := true,
      loginEnv := { tokenResponse := none, setItemFails := false } }
    (initialState [])
  exact ⟨(h.1 rfl).1, ((h.1 rfl).2 (Or.inl rfl)).1⟩

/-- C5: for every device-store contents and every outcome of the startup
token read, checkAuth from the freshly mounted state ends with loading false
and never rejects; a missing or empty stored token yields authenticated
false, a non-empty stored token yields authenticated true, and a failing read
leaves the session not authenticated. -/
theorem C5_checkAuth (store : KVStore) (f : Bool) :
    (checkAuth f (initialState store)).state.loading = false ∧
    (checkAuth f (initialState store)).rejected = false ∧
    (f = false → (kvGet store "token" = none ∨ kvGet store "token" = some "") →
       (checkAuth f (initialState store)).state.isAuthenticated = false) ∧
    (f = false → ∀ t, kvGet store "token" = some t → t ≠ "" →
       (checkAuth f (initialState store)).state.isAuthenticated = true) ∧
    (f = true → (checkAuth f (initialState store)).state.isAuthenticated = false) := by
  rcases hkv : kvGet store "token" with _ | t
  · cases f <;> simp [checkAuth, initialState, hkv]
  · by_cases ht : t = "" <;> cases f <;> simp [checkAuth, initialState, hkv, ht]

/-- C5 witness: the theorem applied to a store holding token "abc123" with a
successful read, giving loading false and authenticated true. -/
theorem C5_checkAuth_witness :
    (checkAuth false (initialState [("token", "abc123")])).state.loading = false ∧
    (checkAuth false (initialState [("token", "abc123")])).state.isAuthenticated = true := by
  have h := C5_checkAuth [("token", "abc123")] false
  exact ⟨h.1, h.2.2.2.1 rfl "abc123" rfl (by decide)⟩

/-- C6: route selection is the three-case function of (loading,
authenticated): loading renders only the loading indicator, not loading and
not authenticated renders the unauthenticated tree, not loading and
authenticated renders the tab tree; the tab tree has exactly 5 tabs named
Home (titled Dashboard), Workouts, Sleep, Recovery, Profile, each route name
bound to exactly one distinct screen component, and each tab's icon is the
filled glyph when focused and the matching outline glyph otherwise. -/
theorem C6_route_selection :
    Navigation true false = RenderedTree.loadingIndicator ∧
    Navigation true true = RenderedTree.loadingIndicator ∧
    Navigation false false = RenderedTree.authNavigator ∧
    Navigation false true = RenderedTree.tabNavigator ∧
    tabScreens.length = 5 ∧
    tabScreens.map Prod.fst = ["Home", "Workouts", "Sleep", "Recovery", "Profile"] ∧
    (tabScreens.map Prod.fst).Nodup ∧
    (tabScreens.map Prod.snd).Nodup ∧
    tabTitle "Home" = some "Dashboard" ∧
    tabBarIcon "Home" true = "home" ∧
    tabBarIcon "Home" false = "home" ++ "-outline" ∧
    tabBarIcon "Workouts" true = "fitness" ∧
    tabBarIcon "Workouts" false = "fitness" ++ "-outline" ∧
    tabBarIcon "Sleep" true = "moon" ∧
    tabBarIcon "Sleep" false = "moon" ++ "-outline" ∧
    tabBarIcon "Recovery" true = "refresh-circle" ∧
    tabBarIcon "Recovery" false = "refresh-circle" ++ "-outline" ∧
    tabBarIcon "Profile" true = "person" ∧
    tabBarIcon "Profile" false = "person" ++ "-outline" := by
  decide

/-- C7: every login call issues exactly one POST to /api/v1/auth/token whose
form-encoded body is exactly grant_type=password, username, password in that
order; no store key other than "token" is ever written; when the backend
answers and the write succeeds the value persisted under "token" is the
response's access_token; and the call's entire outcome depends on the
response only through access_token, so refresh_token and token_type are
discarded. -/
theorem C7_token_request (email password : String) (env : LoginEnv) (s : AuthState) :
    (login email password env s).requests =
      [{ method := "POST", path := "/api/v1/auth/token",
         body := RequestBody.form
           [("grant_type", "password"), ("username", email), ("password", password)] }] ∧
    (∀ k, k ≠ "token" →
       kvGet (login email password env s).state.store k = kvGet s.store k) ∧
    (∀ resp, env.tokenResponse = some resp → env.setItemFails = false →
       kvGet (login email password env s).state.store "token" = some resp.access_token) ∧
    (∀ resp resp', resp.access_token = resp'.access_token →
       login email password { env with tokenResponse := some resp } s =
       login email password { env with tokenResponse := some resp' } s) := by
  refine ⟨?_, ?_, ?_, ?_⟩
  · rcases env with ⟨tr, sif⟩
    cases tr <;> cases sif <;> simp [login, authApiLoginRequest]
  · intro k hk
    rcases env with ⟨tr, sif⟩
    cases tr <;> cases sif <;> simp [login, kvGet_kvSet_ne _ _ _ _ hk]
  · intro resp hb hs
    simp [login, hb, hs, kvGet_kvSet_self]
  · intro resp resp' h
    rcases env with ⟨tr, sif⟩
    cases sif <;> simp [login, h]

/-- C7 witness: the theorem applied to a concrete login whose response carries
access_token "tok1" and refresh_token "ref1": the one request has the exact
form body, "tok1" is persisted under "token", and replacing the
refresh_token by "other" leaves the outcome unchanged. -/
theorem C7_token_request_witness :
    (login "user@example.com" "pw"
       { tokenResponse := some ⟨"tok1", "ref1", "bearer"⟩, setItemFails := false }
       (initialState [("k", "v")])).requests =
      [{ method := "POST", path := "/api/v1/auth/token",
         body := RequestBody.form
           [("grant_type", "password"), ("username", "user@example.com"),
            ("password", "pw")] }] ∧
    kvGet (login "user@example.com" "pw"
       { tokenResponse := some ⟨"tok1", "ref1", "bearer"⟩, setItemFails := false }
       (initialState [("k", "v")])).state.store "k" = some "v" ∧
    kvGet (login "user@example.com" "pw"
       { tokenResponse := some ⟨"tok1", "ref1", "bearer"⟩, setItemFails := false }
       (initialState [("k", "v")])).state.store "token" = some "tok1" ∧
    login "user@example.com" "pw"
       { tokenResponse := some ⟨"tok1", "ref1", "bearer"⟩, setItemFails := false }
       (initialState [("k", "v")]) =
    login "user@example.com" "pw"
       { tokenResponse := some ⟨"tok1", "other", "bearer"⟩, setItemFails := false }
       (initialState [("k", "v")]) := by
  have h := C7_token_request "user@example.com" "pw"
    { tokenResponse := some ⟨"tok1", "ref1", "bearer"⟩, setItemFails := false }
    (initialState [("k", "v")])
  exact ⟨h.1, h.2.1 "k" (by decide), h.2.2.1 ⟨"tok1", "ref1", "bearer"⟩ rfl rfl,
    h.2.2.2 ⟨"tok1", "ref1", "bearer"⟩ ⟨"tok1", "other", "bearer"⟩ rfl⟩

/-- C8: every login call assigns loading exactly twice, true at the start and
false at the very end, so loading ends false on success and on failure alike,
and the call issues exactly one backend request (no retry). -/
theorem C8_login_loading (email password : String) (env : LoginEnv) (s : AuthState) :
    (login email password env s).state.loading = false ∧
    (login email password env s).loadingSets = [true, false] ∧
    (login email password env s).requests.length = 1 := by
  rcases env with ⟨tr, sif⟩
  cases tr <;> cases sif <;> simp [login]
